import Mathlib

/-!
# Verification of the traffic-monitor accounting engine

Shallow embedding of the stateful core of `main.go` from the
`traffic-monitor` repository: the counter-delta accounting
(`updateTrafficStats`), the monthly reset scheduler (`getNextResetTime`
and the reset branches of `updateTrafficStats` / `loadOrInitStats`),
the threshold evaluator (the `switch` on the traffic mode), the warning
gate, and the JSON persistence round trip of `TrafficStats`.

Machine integers: Go `uint64` values are modelled as `Nat` together with
explicit `% 2^64` wraparound in `add64` / `sub64`, mirroring Go's
unsigned arithmetic.

Time: Go `time.Time` values produced by `time.Now()` and `time.Date`
are modelled as a calendar record `GoTime` (year, month, day, hour,
minute, second, plus an opaque zone-offset tag `loc`).  All comparisons
performed by the program (`time.After`) are between times carrying the
same location, for which instant order is lexicographic calendar order;
`GoTime.after` implements that order.  Sub-second precision plays no
role in any claim and is not modelled.
-/

namespace TrafficMonitor

/-- Modulus of Go's `uint64`. -/
def U64 : Nat := 2 ^ 64

/-- Go `uint64` addition `a + b` (wraps modulo `2^64`). -/
def add64 (a b : Nat) : Nat := (a + b) % U64

/-- Go `uint64` subtraction `a - b` for `a, b < 2^64`
(wraps modulo `2^64` when `b > a`). -/
def sub64 (a b : Nat) : Nat := (a + U64 - b) % U64

/-- Calendar model of a Go `time.Time` in a fixed location.  `loc` is an
opaque tag for the `*time.Location` (minutes east of UTC), carried along
by `time.Date(..., now.Location())` and by serialization. -/
structure GoTime where
  year : Nat
  month : Nat
  day : Nat
  hour : Nat
  minute : Nat
  second : Nat
  loc : Int
  deriving Repr, DecidableEq

/-- Model of `t.After u` from Go's `time` package, for two times in the same
location: strict lexicographic calendar order. -/
def GoTime.after (t u : GoTime) : Bool :=
  decide (u.year < t.year) ||
    (decide (t.year = u.year) && (decide (u.month < t.month) ||
      (decide (t.month = u.month) && (decide (u.day < t.day) ||
        (decide (t.day = u.day) && (decide (u.hour < t.hour) ||
          (decide (t.hour = u.hour) && (decide (u.minute < t.minute) ||
            (decide (t.minute = u.minute) && decide (u.second < t.second))))))))))

/-- Character for the decimal digit `n` (`n < 10`). -/
def digitChar (n : Nat) : Char := Char.ofNat (48 + n)

/-- Decimal digit denoted by character `c`. -/
def charDigit (c : Char) : Nat := c.toNat - 48

/-- Two-digit zero-padded decimal rendering (for `n < 100`). -/
def pad2 (n : Nat) : List Char := [digitChar (n / 10), digitChar (n % 10)]

/-- Four-digit zero-padded decimal rendering (for `n < 10000`). -/
def pad4 (n : Nat) : List Char :=
  [digitChar (n / 1000), digitChar (n / 100 % 10), digitChar (n / 10 % 10), digitChar (n % 10)]

/-- Model of `now.Format("2006-01")`: the `"YYYY-MM"` month label. -/
def formatYM (t : GoTime) : String :=
  ⟨pad4 t.year ++ '-' :: pad2 t.month⟩

/-- Model of `getNextResetTime` (main.go:234-253): clamp the reset day to
`[1,28]`, step to the month after `now`'s month (rolling the year over
past December), and build the reset instant at local midnight via
`time.Date(nextYear, nextMonth, resetDay, 0, 0, 0, 0, now.Location())`. -/
def getNextResetTime (now : GoTime) (resetDay : Int) : GoTime :=
  let d : Int := if resetDay < 1 then 1 else if resetDay > 28 then 28 else resetDay
  let nextMonth := now.month + 1
  if nextMonth > 12 then
    { year := now.year + 1, month := 1, day := d.toNat,
      hour := 0, minute := 0, second := 0, loc := now.loc }
  else
    { year := now.year, month := nextMonth, day := d.toNat,
      hour := 0, minute := 0, second := 0, loc := now.loc }

/-- The persisted accounting state `TrafficStats` (main.go:37-46). -/
structure TrafficStats where
  currentMonth : String
  lastResetTime : GoTime
  nextResetTime : GoTime
  bytesIn : Nat
  bytesOut : Nat
  lastBytesIn : Nat
  lastBytesOut : Nat
  warningsSentThisMonth : Bool
  deriving Repr, DecidableEq

/-- The configuration fields read by the accounting engine.
`warningThresholdBytes` stands for `uint64(WarningThresholdGB*1024^3)`
(main.go:355); `botConfigured` for `app.Bot != nil`. -/
structure Config where
  monthlyResetDay : Int
  trafficMode : String
  warningThresholdBytes : Nat
  botConfigured : Bool
  chatIDs : List Int
  deriving Repr

/-- Observable side effects of one call to `updateTrafficStats`:
whether `sendWarningMessage` was invoked, to which chat ids a message
was delivered, whether the monthly report ran (reset path), whether
`saveStats` was reached, and the returned error if any. -/
structure Effects where
  warningAttempted : Bool
  warningsDelivered : List Int
  reportSent : Bool
  saved : Bool
  errorReturned : Option String
  deriving Repr, DecidableEq

/-- Effects of an update that aborted before mutating anything. -/
def noEffects (e : Option String) : Effects :=
  { warningAttempted := false, warningsDelivered := [], reportSent := false,
    saved := false, errorReturned := e }

/-- The `switch app.Config.TrafficMode` of main.go:339-352: the
effective traffic figure compared against the threshold.
`totalTraffic` is declared `var` (zero) and the switch has no default
branch, so every unrecognized mode yields `0`. -/
def effectiveTraffic (mode : String) (bytesIn bytesOut : Nat) : Nat :=
  if mode = "in" then bytesIn
  else if mode = "out" then bytesOut
  else if mode = "max" then (if bytesIn > bytesOut then bytesIn else bytesOut)
  else if mode = "both" then add64 bytesIn bytesOut
  else 0

/-- Model of `sendWarningMessage` (main.go:382-400): with no bot configured it
returns immediately having sent nothing; otherwise it attempts one
`Bot.Send` per configured chat id, logging (and otherwise ignoring)
per-recipient failures.  `deliverOk` abstracts the success of each
individual send; the result lists the ids actually delivered to. -/
def sendWarningMessage (botConfigured : Bool) (chatIDs : List Int)
    (deliverOk : Int → Bool) : List Int :=
  if botConfigured then chatIDs.filter deliverOk else []

/-- The delta/accumulate/rebaseline block of `updateTrafficStats`
(main.go:325-333): `uint64` deltas against the stored baselines,
`uint64` accumulation into the totals, baselines rebased to the raw
sample. -/
def accumulate (currentBytesIn currentBytesOut : Nat) (s : TrafficStats) :
    TrafficStats :=
  { s with bytesIn := add64 s.bytesIn (sub64 currentBytesIn s.lastBytesIn),
           bytesOut := add64 s.bytesOut (sub64 currentBytesOut s.lastBytesOut),
           lastBytesIn := currentBytesIn,
           lastBytesOut := currentBytesOut }

/-- The warning condition of main.go:336-356: the flag is still clear
and the effective traffic has reached
`uint64(WarningThresholdGB*1024^3)`. -/
def warnDue (cfg : Config) (s : TrafficStats) : Bool :=
  !s.warningsSentThisMonth &&
    decide (cfg.warningThresholdBytes ≤
      effectiveTraffic cfg.trafficMode s.bytesIn s.bytesOut)

/-- The warning block of main.go:336-360 as a state transformer: when
the warning fires, the flag is set (after `sendWarningMessage` runs);
nothing else changes. -/
def warnStep (cfg : Config) (s : TrafficStats) : TrafficStats :=
  if warnDue cfg s then { s with warningsSentThisMonth := true } else s

/-- The reset assignments shared by the tick path (main.go:369-374) and
the load path (main.go:201-208, which additionally rebaselines): month
label and period start to `now`, next reset from `getNextResetTime`,
totals zeroed, warning flag cleared.  Baselines untouched. -/
def resetStats (cfg : Config) (now : GoTime) (s : TrafficStats) : TrafficStats :=
  { s with currentMonth := formatYM now,
           lastResetTime := now,
           nextResetTime := getNextResetTime now cfg.monthlyResetDay,
           bytesIn := 0, bytesOut := 0,
           warningsSentThisMonth := false }

/-- Model of `updateTrafficStats` (main.go:315-379), one tick of the accounting
engine under the exclusive lock.  `sample` is the result of
`getCurrentTrafficBytes` (a failed read returns the error with the
state untouched, main.go:320-323); then the accumulate block runs, the
warning gate runs, the reset check runs against `now`, and `saveStats`
is reached. -/
def updateTrafficStats (cfg : Config) (deliverOk : Int → Bool)
    (sample : Except String (Nat × Nat)) (now : GoTime) (s : TrafficStats) :
    TrafficStats × Effects :=
  match sample with
  | .error e => (s, noEffects (some e))
  | .ok (currentBytesIn, currentBytesOut) =>
    let s1 := accumulate currentBytesIn currentBytesOut s
    let warn := warnDue cfg s1
    let delivered :=
      if warn then sendWarningMessage cfg.botConfigured cfg.chatIDs deliverOk else []
    let s2 := warnStep cfg s1
    let resetDue := now.after s2.nextResetTime
    let s3 := if resetDue then resetStats cfg now s2 else s2
    (s3, { warningAttempted := warn, warningsDelivered := delivered,
           reportSent := resetDue, saved := true, errorReturned := none })

/-- The startup reset check of `loadOrInitStats` (main.go:189-211),
after the persisted state has been parsed into `loaded`: if `now` is
after the persisted next reset time, send the monthly report, take a
fresh counter read (failure aborts startup with the error), and reset —
rebaselining `LastBytesIn/Out` from the fresh read.  The returned
`Bool` records whether the reset (with its report and save) ran. -/
def loadStatsResetCheck (cfg : Config) (loaded : TrafficStats) (now : GoTime)
    (freshSample : Except String (Nat × Nat)) :
    Except String (TrafficStats × Bool) :=
  if now.after loaded.nextResetTime then
    match freshSample with
    | .error e => .error e
    | .ok (bytesIn, bytesOut) =>
      .ok ({ resetStats cfg now loaded with
               lastBytesIn := bytesIn, lastBytesOut := bytesOut }, true)
  else .ok (loaded, false)

/-- The monitoring loop (main.go:295-312) as a fold: each entry is one
tick's sampler outcome and wall-clock time; a failed tick is logged and
the loop continues with the state unchanged.  Also counts the ticks on
which `sendWarningMessage` was invoked. -/
def runTicks (cfg : Config) (deliverOk : Int → Bool) :
    TrafficStats → List (Except String (Nat × Nat) × GoTime) → TrafficStats × Nat
  | s, [] => (s, 0)
  | s, (sample, now) :: rest =>
    let r := updateTrafficStats cfg deliverOk sample now s
    let t := runTicks cfg deliverOk r.1 rest
    (t.1, (if r.2.warningAttempted then 1 else 0) + t.2)

/-- A list of ticks whose counter reads all succeed, as fed to
`runTicks`: each entry is one raw `(bytesIn, bytesOut)` sample with its
wall-clock time. -/
def okTicks (ticks : List ((Nat × Nat) × GoTime)) :
    List (Except String (Nat × Nat) × GoTime) :=
  ticks.map (fun p => (.ok p.1, p.2))

/-- A raw-sample stream is non-decreasing starting from `base` (and
each sample fits in `uint64`, as every real counter read does). -/
def monotoneFromB (base : Nat) : List Nat → Bool
  | [] => true
  | x :: rest => decide (base ≤ x) && decide (x < U64) && monotoneFromB x rest

/-- The last raw sample of a stream, or `base` for the empty stream. -/
def lastOf (base : Nat) (l : List Nat) : Nat := l.foldl (fun _ x => x) base

/-- The sum of the per-tick true deltas of a raw-sample stream. -/
def deltaSum (base : Nat) : List Nat → Nat
  | [] => 0
  | x :: rest => (x - base) + deltaSum x rest

/-- JSON value tree: the wire format written by `saveStats`
(`json.MarshalIndent`, main.go:220) and read back by `loadOrInitStats`
(`json.Unmarshal`, main.go:184), abstracted from whitespace and
character escaping. -/
inductive Json where
  | str : String → Json
  | num : Nat → Json
  | bool : Bool → Json
  | obj : List (String × Json) → Json
  deriving Repr

/-- RFC 3339 rendering of a `GoTime`, the form `time.Time` marshals to
inside the persisted JSON: `YYYY-MM-DDThh:mm:ss±hh:mm` with the zone
offset split into hours and minutes. -/
def fmtTime (t : GoTime) : String :=
  ⟨pad4 t.year ++ '-' :: pad2 t.month ++ '-' :: pad2 t.day ++
    'T' :: pad2 t.hour ++ ':' :: pad2 t.minute ++ ':' :: pad2 t.second ++
    (if t.loc < 0 then '-' else '+') ::
      pad2 (t.loc.natAbs / 60) ++ ':' :: pad2 (t.loc.natAbs % 60)⟩

/-- RFC 3339 parsing of a `GoTime`, the un-marshalling direction of the
`time.Time` JSON codec: fixed-position fields with separator and sign
checks. -/
def parseTime (s : String) : Option GoTime :=
  match s.data with
  | [y1, y2, y3, y4, a1, m1, m2, a2, d1, d2, a3, h1, h2, a4, i1, i2, a5, s1, s2,
     sg, o1, o2, a6, o3, o4] =>
    if a1 = '-' ∧ a2 = '-' ∧ a3 = 'T' ∧ a4 = ':' ∧ a5 = ':' ∧ a6 = ':' ∧
        (sg = '+' ∨ sg = '-') then
      some { year := charDigit y1 * 1000 + charDigit y2 * 100 +
                     charDigit y3 * 10 + charDigit y4,
             month := charDigit m1 * 10 + charDigit m2,
             day := charDigit d1 * 10 + charDigit d2,
             hour := charDigit h1 * 10 + charDigit h2,
             minute := charDigit i1 * 10 + charDigit i2,
             second := charDigit s1 * 10 + charDigit s2,
             loc := (if sg = '-' then -1 else 1) *
               ((charDigit o1 * 10 + charDigit o2) * 60 +
                (charDigit o3 * 10 + charDigit o4)) }
    else none
  | _ => none

/-- Serialization of `TrafficStats` (the `json:"..."` tags of
main.go:37-46). -/
def statsToJson (s : TrafficStats) : Json :=
  .obj [("current_month", .str s.currentMonth),
        ("last_reset_time", .str (fmtTime s.lastResetTime)),
        ("next_reset_time", .str (fmtTime s.nextResetTime)),
        ("bytes_in", .num s.bytesIn),
        ("bytes_out", .num s.bytesOut),
        ("last_bytes_in", .num s.lastBytesIn),
        ("last_bytes_out", .num s.lastBytesOut),
        ("warnings_sent_this_month", .bool s.warningsSentThisMonth)]

/-- First value bound to `key` in a JSON object's field list. -/
def jsonLookup (fields : List (String × Json)) (key : String) : Option Json :=
  match fields with
  | [] => none
  | (k, v) :: rest => if k = key then some v else jsonLookup rest key

/-- Decode a JSON value into a Go `string` field. -/
def asStr : Option Json → Option String
  | some (.str s) => some s
  | _ => none

/-- Decode a JSON value into a Go `uint64` field (out-of-range numbers
are an unmarshalling error). -/
def asNum : Option Json → Option Nat
  | some (.num n) => if n < U64 then some n else none
  | _ => none

/-- Decode a JSON value into a Go `bool` field. -/
def asBool : Option Json → Option Bool
  | some (.bool b) => some b
  | _ => none

/-- Decode a JSON value into a Go `time.Time` field. -/
def asTime : Option Json → Option GoTime
  | some (.str s) => parseTime s
  | _ => none

/-- Deserialization of `TrafficStats` from the persisted JSON
(`json.Unmarshal` into the tagged struct of main.go:37-46). -/
def statsFromJson : Json → Option TrafficStats
  | .obj fields => do
    let cm ← asStr (jsonLookup fields "current_month")
    let lrt ← asTime (jsonLookup fields "last_reset_time")
    let nrt ← asTime (jsonLookup fields "next_reset_time")
    let bIn ← asNum (jsonLookup fields "bytes_in")
    let bOut ← asNum (jsonLookup fields "bytes_out")
    let lIn ← asNum (jsonLookup fields "last_bytes_in")
    let lOut ← asNum (jsonLookup fields "last_bytes_out")
    let w ← asBool (jsonLookup fields "warnings_sent_this_month")
    pure { currentMonth := cm, lastResetTime := lrt, nextResetTime := nrt,
           bytesIn := bIn, bytesOut := bOut, lastBytesIn := lIn,
           lastBytesOut := lOut, warningsSentThisMonth := w }
  | _ => none

/-- Numeric fields of a `TrafficStats` fit in `uint64` (true of every
state the program builds, since the Go fields are `uint64`). -/
def statsU64 (s : TrafficStats) : Prop :=
  s.bytesIn < U64 ∧ s.bytesOut < U64 ∧ s.lastBytesIn < U64 ∧ s.lastBytesOut < U64

/-- Field ranges under which a `GoTime` serializes faithfully: the
ranges Go's RFC 3339 marshaller itself requires (four-digit year,
two-digit calendar and clock fields, zone offset below `±100:00`). -/
def timeValid (t : GoTime) : Prop :=
  t.year < 10000 ∧ t.month < 100 ∧ t.day < 100 ∧ t.hour < 100 ∧
    t.minute < 100 ∧ t.second < 100 ∧ t.loc.natAbs < 6000

instance (s : TrafficStats) : Decidable (statsU64 s) := by
  unfold statsU64; infer_instance

instance (t : GoTime) : Decidable (timeValid t) := by
  unfold timeValid; infer_instance

/-! Concrete sample values used to exercise the theorems below. -/

/-- One GiB (`1024*1024*1024` bytes). -/
def GiB : Nat := 2 ^ 30

/-- A tick instant: 2025-04-12 10:30:00 at UTC+8. -/
def aprNow : GoTime :=
  { year := 2025, month := 4, day := 12, hour := 10, minute := 30, second := 0,
    loc := 480 }

/-- The scheduled reset boundary after `aprNow`: 2025-05-01 midnight. -/
def mayReset : GoTime :=
  { year := 2025, month := 5, day := 1, hour := 0, minute := 0, second := 0,
    loc := 480 }

/-- A tick instant past `mayReset`: 2025-05-02 03:00:00. -/
def mayNow : GoTime :=
  { year := 2025, month := 5, day := 2, hour := 3, minute := 0, second := 0,
    loc := 480 }

/-- A late-December instant, exercising the year rollover. -/
def decNow : GoTime :=
  { year := 2025, month := 12, day := 31, hour := 23, minute := 59, second := 59,
    loc := -300 }

/-- A mid-period accounting state with zero accumulation and baselines
at raw counter value 10. -/
def baseStats : TrafficStats :=
  { currentMonth := "2025-04",
    lastResetTime := { year := 2025, month := 4, day := 1, hour := 0,
                       minute := 0, second := 0, loc := 480 },
    nextResetTime := mayReset,
    bytesIn := 0, bytesOut := 0, lastBytesIn := 10, lastBytesOut := 10,
    warningsSentThisMonth := false }

/-- The spec's scenario configuration: mode `both`, threshold 1000 GB,
no bot configured, one recipient. -/
def cfgBoth : Config :=
  { monthlyResetDay := 1, trafficMode := "both",
    warningThresholdBytes := 1000 * GiB, botConfigured := false,
    chatIDs := [7] }

/-- Variant of `baseStats` with raw baselines at 0, for the threshold scenarios. -/
def zeroBaseStats : TrafficStats :=
  { baseStats with lastBytesIn := 0, lastBytesOut := 0 }

/-!
## Theorems

Helper lemmas first, then one theorem (plus witness where required)
per claim.
-/

theorem U64_pos : 0 < U64 := by decide

/-- Unfolding equation for a tick with a successful counter read. -/
theorem updateTrafficStats_ok (cfg : Config) (dOk : Int → Bool) (a b : Nat)
    (now : GoTime) (s : TrafficStats) :
    updateTrafficStats cfg dOk (.ok (a, b)) now s =
      (if now.after (warnStep cfg (accumulate a b s)).nextResetTime then
         resetStats cfg now (warnStep cfg (accumulate a b s))
       else warnStep cfg (accumulate a b s),
       { warningAttempted := warnDue cfg (accumulate a b s),
         warningsDelivered :=
           if warnDue cfg (accumulate a b s) then
             sendWarningMessage cfg.botConfigured cfg.chatIDs dOk
           else [],
         reportSent := now.after (warnStep cfg (accumulate a b s)).nextResetTime,
         saved := true, errorReturned := none }) := rfl

@[simp] theorem accumulate_bytesIn (a b : Nat) (s : TrafficStats) :
    (accumulate a b s).bytesIn = add64 s.bytesIn (sub64 a s.lastBytesIn) := rfl

@[simp] theorem accumulate_bytesOut (a b : Nat) (s : TrafficStats) :
    (accumulate a b s).bytesOut = add64 s.bytesOut (sub64 b s.lastBytesOut) := rfl

@[simp] theorem accumulate_lastBytesIn (a b : Nat) (s : TrafficStats) :
    (accumulate a b s).lastBytesIn = a := rfl

@[simp] theorem accumulate_lastBytesOut (a b : Nat) (s : TrafficStats) :
    (accumulate a b s).lastBytesOut = b := rfl

@[simp] theorem accumulate_nextResetTime (a b : Nat) (s : TrafficStats) :
    (accumulate a b s).nextResetTime = s.nextResetTime := rfl

@[simp] theorem accumulate_lastResetTime (a b : Nat) (s : TrafficStats) :
    (accumulate a b s).lastResetTime = s.lastResetTime := rfl

@[simp] theorem accumulate_flag (a b : Nat) (s : TrafficStats) :
    (accumulate a b s).warningsSentThisMonth = s.warningsSentThisMonth := rfl

@[simp] theorem warnStep_bytesIn (cfg : Config) (s : TrafficStats) :
    (warnStep cfg s).bytesIn = s.bytesIn := by
  unfold warnStep; split <;> rfl

@[simp] theorem warnStep_bytesOut (cfg : Config) (s : TrafficStats) :
    (warnStep cfg s).bytesOut = s.bytesOut := by
  unfold warnStep; split <;> rfl

@[simp] theorem warnStep_lastBytesIn (cfg : Config) (s : TrafficStats) :
    (warnStep cfg s).lastBytesIn = s.lastBytesIn := by
  unfold warnStep; split <;> rfl

@[simp] theorem warnStep_lastBytesOut (cfg : Config) (s : TrafficStats) :
    (warnStep cfg s).lastBytesOut = s.lastBytesOut := by
  unfold warnStep; split <;> rfl

@[simp] theorem warnStep_nextResetTime (cfg : Config) (s : TrafficStats) :
    (warnStep cfg s).nextResetTime = s.nextResetTime := by
  unfold warnStep; split <;> rfl

@[simp] theorem warnStep_lastResetTime (cfg : Config) (s : TrafficStats) :
    (warnStep cfg s).lastResetTime = s.lastResetTime := by
  unfold warnStep; split <;> rfl

@[simp] theorem warnStep_flag (cfg : Config) (s : TrafficStats) :
    (warnStep cfg s).warningsSentThisMonth =
      (warnDue cfg s || s.warningsSentThisMonth) := by
  unfold warnStep
  split <;> simp_all

@[simp] theorem resetStats_bytesIn (cfg : Config) (now : GoTime) (s : TrafficStats) :
    (resetStats cfg now s).bytesIn = 0 := rfl

@[simp] theorem resetStats_bytesOut (cfg : Config) (now : GoTime) (s : TrafficStats) :
    (resetStats cfg now s).bytesOut = 0 := rfl

@[simp] theorem resetStats_flag (cfg : Config) (now : GoTime) (s : TrafficStats) :
    (resetStats cfg now s).warningsSentThisMonth = false := rfl

@[simp] theorem resetStats_lastResetTime (cfg : Config) (now : GoTime)
    (s : TrafficStats) : (resetStats cfg now s).lastResetTime = now := rfl

@[simp] theorem resetStats_nextResetTime (cfg : Config) (now : GoTime)
    (s : TrafficStats) :
    (resetStats cfg now s).nextResetTime = getNextResetTime now cfg.monthlyResetDay := rfl

@[simp] theorem resetStats_lastBytesIn (cfg : Config) (now : GoTime)
    (s : TrafficStats) : (resetStats cfg now s).lastBytesIn = s.lastBytesIn := rfl

@[simp] theorem resetStats_lastBytesOut (cfg : Config) (now : GoTime)
    (s : TrafficStats) : (resetStats cfg now s).lastBytesOut = s.lastBytesOut := rfl

/-- Once the flag is set, `warnDue` never holds. -/
theorem warnDue_of_flag (cfg : Config) (s : TrafficStats)
    (h : s.warningsSentThisMonth = true) : warnDue cfg s = false := by
  unfold warnDue
  simp [h]

/-- The scheduled next reset is always strictly after the instant it
was computed from: it lies in a strictly later (year, month). -/
theorem getNextResetTime_after (now : GoTime) (d : Int) :
    (getNextResetTime now d).after now = true := by
  unfold getNextResetTime GoTime.after
  by_cases hm : now.month + 1 > 12
  · simp only [if_pos hm]
    simp
  · simp only [if_neg hm]
    simp

/-- Unsigned `uint64` addition that stays in range is plain addition. -/
theorem add64_of_lt (a b : Nat) (h : a + b < U64) : add64 a b = a + b := by
  unfold add64
  exact Nat.mod_eq_of_lt h

/-- Unsigned `uint64` subtraction with no underflow is plain subtraction. -/
theorem sub64_of_le (a b : Nat) (hb : b ≤ a) (ha : a < U64) : sub64 a b = a - b := by
  unfold sub64
  have h1 : a + U64 - b = (a - b) + U64 := by omega
  rw [h1, Nat.add_mod_right]
  exact Nat.mod_eq_of_lt (by omega)

/-- C4: a failed counter read (for instance the distinguished
"interface not found" error of `getCurrentTrafficBytes`) makes
`updateTrafficStats` return the error with the whole `TrafficStats`
record unchanged and without reaching `saveStats`, and the monitoring
loop just moves on to the remaining ticks from the same state. -/
theorem updateTrafficStats_error_aborts (cfg : Config) (dOk : Int → Bool)
    (e : String) (now : GoTime) (s : TrafficStats)
    (rest : List (Except String (Nat × Nat) × GoTime)) :
    updateTrafficStats cfg dOk (.error e) now s = (s, noEffects (some e)) ∧
    (noEffects (some e)).saved = false ∧
    (noEffects (some e)).warningAttempted = false ∧
    runTicks cfg dOk s ((.error e, now) :: rest) = runTicks cfg dOk s rest := by
  refine ⟨rfl, rfl, rfl, ?_⟩
  simp [runTicks, updateTrafficStats, noEffects]

/-- C5: the threshold evaluator returns `accIn` for mode `in`, `accOut`
for mode `out`, the maximum for mode `max`, the (`uint64`) sum for mode
`both`, and `0` for every unrecognized mode, in which case no positive
threshold can be reached. -/
theorem effectiveTraffic_spec (mode : String) (a b thr : Nat) :
    effectiveTraffic "in" a b = a ∧
    effectiveTraffic "out" a b = b ∧
    effectiveTraffic "max" a b = max a b ∧
    (a + b < U64 → effectiveTraffic "both" a b = a + b) ∧
    (mode ≠ "in" → mode ≠ "out" → mode ≠ "max" → mode ≠ "both" →
      effectiveTraffic mode a b = 0 ∧ (0 < thr → ¬ thr ≤ effectiveTraffic mode a b)) := by
  refine ⟨rfl, rfl, ?_, ?_, ?_⟩
  · show (if b < a then a else b) = max a b
    rw [Nat.max_def]
    split <;> split <;> omega
  · intro h
    show add64 a b = a + b
    exact add64_of_lt a b h
  · intro h1 h2 h3 h4
    simp only [effectiveTraffic, if_neg h1, if_neg h2, if_neg h3, if_neg h4]
    exact ⟨trivial, by omega⟩

/-- C1 (failing): at a tick whose raw counter has reset below the
stored baseline (raw sample 5 against baseline 10), the unguarded
`uint64` subtraction of main.go:326 wraps around: the delta added to
`BytesIn` is `2^64 - 5` — not the raw value `5` the spec mandates for a
counter discontinuity — and this single tick already trips the warning
gate, the false triggering the spec's policy exists to prevent. -/
theorem counterReset_wraps_to_huge_delta :
    (updateTrafficStats cfgBoth (fun _ => true) (.ok (5, 10)) aprNow baseStats).1.bytesIn
        = U64 - 5 ∧
    U64 - 5 ≠ 5 ∧
    (updateTrafficStats cfgBoth (fun _ => true) (.ok (5, 10)) aprNow baseStats).2.warningAttempted
        = true := by
  exact ⟨by decide, by decide, by decide⟩

/-- The clamped reset day of `getNextResetTime` is `clamp(resetDay, 1, 28)`. -/
theorem getNextResetTime_day (now : GoTime) (d : Int) :
    (getNextResetTime now d).day = (min (max d 1) 28).toNat := by
  have hcore : (if d < 1 then (1 : Int) else if d > 28 then 28 else d)
      = min (max d 1) 28 := by
    split
    · omega
    · split <;> omega
  simp only [getNextResetTime, hcore]
  split <;> rfl

/-- The result of `getNextResetTime` lands in the month immediately after `now`'s,
rolling the year over from December. -/
theorem getNextResetTime_ym (now : GoTime) (d : Int) (h : now.month ≤ 12) :
    (getNextResetTime now d).year
        = (if now.month = 12 then now.year + 1 else now.year) ∧
    (getNextResetTime now d).month
        = (if now.month = 12 then 1 else now.month + 1) := by
  simp only [getNextResetTime]
  split <;> rename_i hm
  · have h12 : now.month = 12 := by omega
    simp [h12]
  · have h12 : now.month ≠ 12 := by omega
    simp [h12]

/-- The result of `getNextResetTime` is at midnight in `now`'s location. -/
theorem getNextResetTime_midnight (now : GoTime) (d : Int) :
    (getNextResetTime now d).hour = 0 ∧ (getNextResetTime now d).minute = 0 ∧
    (getNextResetTime now d).second = 0 ∧ (getNextResetTime now d).loc = now.loc := by
  simp only [getNextResetTime]
  split <;> exact ⟨rfl, rfl, rfl, rfl⟩

/-- C7: `getNextResetTime now resetDay` is in the calendar month
immediately following `now`'s month (rolling the year over from
December to January), on day-of-month `clamp(resetDay, 1, 28)`, at
midnight in `now`'s location, and strictly after `now`. -/
theorem getNextResetTime_spec (now : GoTime) (d : Int) (h : now.month ≤ 12) :
    (getNextResetTime now d).year
        = (if now.month = 12 then now.year + 1 else now.year) ∧
    (getNextResetTime now d).month
        = (if now.month = 12 then 1 else now.month + 1) ∧
    (getNextResetTime now d).day = (min (max d 1) 28).toNat ∧
    (getNextResetTime now d).hour = 0 ∧
    (getNextResetTime now d).minute = 0 ∧
    (getNextResetTime now d).second = 0 ∧
    (getNextResetTime now d).loc = now.loc ∧
    (getNextResetTime now d).after now = true := by
  obtain ⟨hy, hm⟩ := getNextResetTime_ym now d h
  obtain ⟨h1, h2, h3, h4⟩ := getNextResetTime_midnight now d
  exact ⟨hy, hm, getNextResetTime_day now d, h1, h2, h3, h4,
         getNextResetTime_after now d⟩

/-- Witness for C7 at the December 31 instant with an out-of-range
reset day 35: the reset lands on 2026-01-28 at midnight, strictly
after `decNow`. -/
theorem getNextResetTime_spec_witness :
    decNow.month ≤ 12 ∧
    (getNextResetTime decNow 35).year = 2026 ∧
    (getNextResetTime decNow 35).month = 1 ∧
    (getNextResetTime decNow 35).day = 28 ∧
    (getNextResetTime decNow 35).hour = 0 ∧
    (getNextResetTime decNow 35).after decNow = true := by
  have h := getNextResetTime_spec decNow 35 (by decide)
  exact ⟨by decide, by decide, by decide, by decide, h.2.2.2.1,
         h.2.2.2.2.2.2.2⟩

/-- C6: on both the tick path and the startup-load path a reset runs
exactly when `now` is strictly after the stored `nextResetAt`
(`time.After` is strict); the transition zeroes both accumulated
totals, clears the warning flag, sets the period start to `now`, and
schedules a next reset strictly after `now`.  When the reset is not
due, the schedule fields are untouched and no report runs. -/
theorem reset_condition_and_transition (cfg : Config) (dOk : Int → Bool)
    (a b fIn fOut : Nat) (now : GoTime) (s loaded : TrafficStats) :
    (now.after s.nextResetTime = true →
      (updateTrafficStats cfg dOk (.ok (a, b)) now s).1.bytesIn = 0 ∧
      (updateTrafficStats cfg dOk (.ok (a, b)) now s).1.bytesOut = 0 ∧
      (updateTrafficStats cfg dOk (.ok (a, b)) now s).1.warningsSentThisMonth = false ∧
      (updateTrafficStats cfg dOk (.ok (a, b)) now s).1.lastResetTime = now ∧
      (updateTrafficStats cfg dOk (.ok (a, b)) now s).1.nextResetTime
          = getNextResetTime now cfg.monthlyResetDay ∧
      (getNextResetTime now cfg.monthlyResetDay).after now = true) ∧
    (now.after s.nextResetTime = false →
      (updateTrafficStats cfg dOk (.ok (a, b)) now s).1.lastResetTime = s.lastResetTime ∧
      (updateTrafficStats cfg dOk (.ok (a, b)) now s).1.nextResetTime = s.nextResetTime ∧
      (updateTrafficStats cfg dOk (.ok (a, b)) now s).2.reportSent = false) ∧
    (now.after loaded.nextResetTime = true →
      loadStatsResetCheck cfg loaded now (.ok (fIn, fOut)) =
        .ok ({ resetStats cfg now loaded with
                 lastBytesIn := fIn, lastBytesOut := fOut }, true)) ∧
    (now.after loaded.nextResetTime = false →
      loadStatsResetCheck cfg loaded now (.ok (fIn, fOut)) = .ok (loaded, false)) := by
  refine ⟨?_, ?_, ?_, ?_⟩
  · intro h
    simp [updateTrafficStats_ok, h, getNextResetTime_after]
  · intro h
    simp [updateTrafficStats_ok, h]
  · intro h
    simp [loadStatsResetCheck, h]
  · intro h
    simp [loadStatsResetCheck, h]

/-- Witness for C6: at `mayNow` (past the scheduled `mayReset`) the
tick path resets; at `aprNow` it does not; the load path resets from a
fresh read. -/
theorem reset_condition_and_transition_witness :
    (updateTrafficStats cfgBoth (fun _ => true) (.ok (20, 30)) mayNow baseStats).1.bytesIn = 0 ∧
    (updateTrafficStats cfgBoth (fun _ => true) (.ok (20, 30)) mayNow baseStats).1.lastResetTime = mayNow ∧
    (updateTrafficStats cfgBoth (fun _ => true) (.ok (20, 30)) aprNow baseStats).1.nextResetTime
        = baseStats.nextResetTime ∧
    loadStatsResetCheck cfgBoth baseStats mayNow (.ok (40, 50)) =
      .ok ({ resetStats cfgBoth mayNow baseStats with
               lastBytesIn := 40, lastBytesOut := 50 }, true) := by
  have hd := reset_condition_and_transition cfgBoth (fun _ => true) 20 30 40 50
    mayNow baseStats baseStats
  have hn := reset_condition_and_transition cfgBoth (fun _ => true) 20 30 40 50
    aprNow baseStats baseStats
  exact ⟨(hd.1 (by decide)).1, (hd.1 (by decide)).2.2.2.1,
         (hn.2.1 (by decide)).2.1, hd.2.2.1 (by decide)⟩

/-- C8: a tick-triggered reset keeps the baselines at the raw sample
written earlier in that same tick, while the startup-load reset
rebaselines both from the fresh counter read; the remaining reset
effects (zeroed totals, cleared flag, advanced schedule) agree between
the two paths. -/
theorem reset_baseline_handling (cfg : Config) (dOk : Int → Bool)
    (a b fIn fOut : Nat) (now : GoTime) (s loaded : TrafficStats) :
    (now.after s.nextResetTime = true →
      (updateTrafficStats cfg dOk (.ok (a, b)) now s).1.lastBytesIn = a ∧
      (updateTrafficStats cfg dOk (.ok (a, b)) now s).1.lastBytesOut = b ∧
      (updateTrafficStats cfg dOk (.ok (a, b)) now s).1
          = resetStats cfg now (warnStep cfg (accumulate a b s))) ∧
    (now.after loaded.nextResetTime = true →
      loadStatsResetCheck cfg loaded now (.ok (fIn, fOut)) =
        .ok ({ resetStats cfg now loaded with
                 lastBytesIn := fIn, lastBytesOut := fOut }, true)) := by
  constructor
  · intro h
    refine ⟨?_, ?_, ?_⟩ <;> simp [updateTrafficStats_ok, h]
  · intro h
    simp [loadStatsResetCheck, h]

/-- Witness for C8: the tick reset at `mayNow` keeps the just-sampled
baselines 20/30; the load reset rebaselines to the fresh read 40/50. -/
theorem reset_baseline_handling_witness :
    (updateTrafficStats cfgBoth (fun _ => true) (.ok (20, 30)) mayNow baseStats).1.lastBytesIn = 20 ∧
    (updateTrafficStats cfgBoth (fun _ => true) (.ok (20, 30)) mayNow baseStats).1.lastBytesOut = 30 ∧
    loadStatsResetCheck cfgBoth baseStats mayNow (.ok (40, 50)) =
      .ok ({ resetStats cfgBoth mayNow baseStats with
               lastBytesIn := 40, lastBytesOut := 50 }, true) := by
  have h := reset_baseline_handling cfgBoth (fun _ => true) 20 30 40 50
    mayNow baseStats baseStats
  exact ⟨(h.1 (by decide)).1, (h.1 (by decide)).2.1, h.2 (by decide)⟩

/-- A tick that does not cross the reset boundary leaves the schedule
untouched. -/
theorem update_noReset_nextResetTime (cfg : Config) (dOk : Int → Bool)
    (smp : Except String (Nat × Nat)) (now : GoTime) (s : TrafficStats)
    (h : now.after s.nextResetTime = false) :
    (updateTrafficStats cfg dOk smp now s).1.nextResetTime = s.nextResetTime := by
  cases smp with
  | error e => rfl
  | ok p =>
    obtain ⟨a, b⟩ := p
    simp [updateTrafficStats_ok, h]

/-- Within a period (no reset crossed), the warning flag after a tick
is the old flag joined with this tick's warning, and a warning can be
attempted only from a clear flag. -/
theorem update_noReset_flag (cfg : Config) (dOk : Int → Bool)
    (smp : Except String (Nat × Nat)) (now : GoTime) (s : TrafficStats)
    (h : now.after s.nextResetTime = false) :
    (updateTrafficStats cfg dOk smp now s).1.warningsSentThisMonth =
      ((updateTrafficStats cfg dOk smp now s).2.warningAttempted ||
        s.warningsSentThisMonth) ∧
    ((updateTrafficStats cfg dOk smp now s).2.warningAttempted = true →
      s.warningsSentThisMonth = false) := by
  cases smp with
  | error e => exact ⟨rfl, by intro hc; cases hc⟩
  | ok p =>
    obtain ⟨a, b⟩ := p
    constructor
    · simp [updateTrafficStats_ok, h]
    · intro hw
      have : warnDue cfg (accumulate a b s) = true := by
        simpa [updateTrafficStats_ok] using hw
      unfold warnDue at this
      simp only [Bool.and_eq_true, Bool.not_eq_true', accumulate_flag] at this
      exact this.1

/-- Bound on the warnings a no-reset run can attempt: none from a set
flag, at most one from a clear flag; the schedule is preserved. -/
theorem runTicks_warnCount (cfg : Config) (dOk : Int → Bool)
    (ticks : List (Except String (Nat × Nat) × GoTime)) (s : TrafficStats)
    (h : ∀ p ∈ ticks, GoTime.after p.2 s.nextResetTime = false) :
    (runTicks cfg dOk s ticks).2 ≤ (if s.warningsSentThisMonth then 0 else 1) ∧
    (runTicks cfg dOk s ticks).1.nextResetTime = s.nextResetTime := by
  induction ticks generalizing s with
  | nil => simp [runTicks]
  | cons p rest ih =>
    obtain ⟨smp, now⟩ := p
    have hnow : now.after s.nextResetTime = false := h _ (List.mem_cons_self _ _)
    have hnr : (updateTrafficStats cfg dOk smp now s).1.nextResetTime
        = s.nextResetTime :=
      update_noReset_nextResetTime cfg dOk smp now s hnow
    have hrest : ∀ q ∈ rest,
        GoTime.after q.2 (updateTrafficStats cfg dOk smp now s).1.nextResetTime
          = false := by
      rw [hnr]
      intro q hq
      exact h q (List.mem_cons_of_mem _ hq)
    obtain ⟨ih1, ih2⟩ := ih (updateTrafficStats cfg dOk smp now s).1 hrest
    obtain ⟨hflag, hclear⟩ := update_noReset_flag cfg dOk smp now s hnow
    refine ⟨?_, by simpa [runTicks] using ih2.trans hnr⟩
    show (if (updateTrafficStats cfg dOk smp now s).2.warningAttempted then 1 else 0) +
        (runTicks cfg dOk (updateTrafficStats cfg dOk smp now s).1 rest).2 ≤ _
    by_cases hatt : (updateTrafficStats cfg dOk smp now s).2.warningAttempted = true
    · have h0 : s.warningsSentThisMonth = false := hclear hatt
      have h1 : (updateTrafficStats cfg dOk smp now s).1.warningsSentThisMonth = true := by
        rw [hflag, hatt]; rfl
      rw [h1] at ih1
      rw [hatt, h0]
      simp at ih1 ⊢
      omega
    · have hattf : (updateTrafficStats cfg dOk smp now s).2.warningAttempted = false := by
        simpa using hatt
      have h1 : (updateTrafficStats cfg dOk smp now s).1.warningsSentThisMonth
          = s.warningsSentThisMonth := by
        rw [hflag, hattf]; rfl
      rw [h1] at ih1
      rw [hattf]
      simpa using ih1

/-- C2: between two consecutive resets the warning fires at most once:
over any run of ticks none of which crosses the reset boundary,
`sendWarningMessage` is invoked on at most one tick, and on none at
all once `WarningsSentThisMonth` is already set — the flag is the sole
gate. -/
theorem warning_gate_once (cfg : Config) (dOk : Int → Bool)
    (ticks : List (Except String (Nat × Nat) × GoTime)) (s : TrafficStats)
    (h : ∀ p ∈ ticks, GoTime.after p.2 s.nextResetTime = false) :
    (runTicks cfg dOk s ticks).2 ≤ 1 ∧
    (s.warningsSentThisMonth = true → (runTicks cfg dOk s ticks).2 = 0) := by
  obtain ⟨h1, _⟩ := runTicks_warnCount cfg dOk ticks s h
  constructor
  · exact h1.trans (by split <;> omega)
  · intro hf
    rw [hf] at h1
    simpa using h1

/-- Witness for C2, the spec's scenario: mode `both`, threshold
1000 GB, a tick reaching 600 GiB in / 450 GiB out (effective 1050 GiB,
over threshold) followed by a tick at 600 GiB / 460 GiB: exactly one
warning is attempted over the two ticks. -/
theorem warning_gate_once_witness :
    (runTicks cfgBoth (fun _ => true) zeroBaseStats
        [(.ok (600 * GiB, 450 * GiB), aprNow), (.ok (600 * GiB, 460 * GiB), aprNow)]).2
      ≤ 1 ∧
    (runTicks cfgBoth (fun _ => true) zeroBaseStats
        [(.ok (600 * GiB, 450 * GiB), aprNow), (.ok (600 * GiB, 460 * GiB), aprNow)]).2
      = 1 := by
  refine ⟨(warning_gate_once cfgBoth (fun _ => true)
    [(.ok (600 * GiB, 450 * GiB), aprNow), (.ok (600 * GiB, 460 * GiB), aprNow)]
    zeroBaseStats (by decide)).1, by decide⟩

/-- C10: on a tick with the flag clear and effective traffic at or over
the threshold, the flag is set unconditionally — `sendWarningMessage`
delivers nothing when no bot is configured, and delivers to nobody when
every per-recipient send fails, yet the flag still flips — so the
period's one warning is consumed with no notification delivered and no
later tick of the period retries it. -/
theorem warning_consumed_without_notifier (cfg : Config) (dOk : Int → Bool)
    (a b : Nat) (now : GoTime) (s : TrafficStats)
    (hflag : s.warningsSentThisMonth = false)
    (hthr : cfg.warningThresholdBytes ≤
      effectiveTraffic cfg.trafficMode (accumulate a b s).bytesIn
        (accumulate a b s).bytesOut)
    (hnr : now.after s.nextResetTime = false) :
    (updateTrafficStats cfg dOk (.ok (a, b)) now s).1.warningsSentThisMonth = true ∧
    (updateTrafficStats cfg dOk (.ok (a, b)) now s).2.warningAttempted = true ∧
    (cfg.botConfigured = false →
      (updateTrafficStats cfg dOk (.ok (a, b)) now s).2.warningsDelivered = []) ∧
    ((∀ i ∈ cfg.chatIDs, dOk i = false) →
      (updateTrafficStats cfg dOk (.ok (a, b)) now s).2.warningsDelivered = []) ∧
    (∀ smp2 now2,
      now2.after (updateTrafficStats cfg dOk (.ok (a, b)) now s).1.nextResetTime
          = false →
      (updateTrafficStats cfg dOk smp2 now2
          (updateTrafficStats cfg dOk (.ok (a, b)) now s).1).2.warningAttempted
        = false) := by
  have hwarn : warnDue cfg (accumulate a b s) = true := by
    unfold warnDue
    rw [accumulate_flag, hflag]
    simpa using hthr
  have hsflag :
      (updateTrafficStats cfg dOk (.ok (a, b)) now s).1.warningsSentThisMonth = true := by
    simp [updateTrafficStats_ok, hnr, hwarn]
  refine ⟨hsflag, ?_, ?_, ?_, ?_⟩
  · simp [updateTrafficStats_ok, hwarn]
  · intro h
    simp [updateTrafficStats_ok, hwarn, sendWarningMessage, h]
  · intro h
    simp only [updateTrafficStats_ok, hwarn, if_true, sendWarningMessage]
    split
    · simpa [List.filter_eq_nil_iff] using fun i hi => by simp [h i hi]
    · rfl
  · intro smp2 now2 h2
    by_cases hc : (updateTrafficStats cfg dOk smp2 now2
        (updateTrafficStats cfg dOk (.ok (a, b)) now s).1).2.warningAttempted = true
    · have := (update_noReset_flag cfg dOk smp2 now2 _ h2).2 hc
      rw [hsflag] at this
      cases this
    · simpa using hc

/-- Witness for C10: the spec's threshold scenario with no bot
configured and an all-failing sender: the flag is consumed, nothing is
delivered, and the next tick attempts no warning. -/
theorem warning_consumed_without_notifier_witness :
    (updateTrafficStats cfgBoth (fun _ => false) (.ok (600 * GiB, 450 * GiB))
        aprNow zeroBaseStats).1.warningsSentThisMonth = true ∧
    (updateTrafficStats cfgBoth (fun _ => false) (.ok (600 * GiB, 450 * GiB))
        aprNow zeroBaseStats).2.warningsDelivered = [] ∧
    (updateTrafficStats cfgBoth (fun _ => false) (.ok (600 * GiB, 460 * GiB)) aprNow
        (updateTrafficStats cfgBoth (fun _ => false) (.ok (600 * GiB, 450 * GiB))
          aprNow zeroBaseStats).1).2.warningAttempted = false := by
  have h := warning_consumed_without_notifier cfgBoth (fun _ => false)
    (600 * GiB) (450 * GiB) aprNow zeroBaseStats (by decide) (by decide) (by decide)
  exact ⟨h.1, h.2.2.1 (by decide),
         h.2.2.2.2 (.ok (600 * GiB, 460 * GiB)) aprNow (by decide)⟩

theorem lastOf_cons (base x : Nat) (l : List Nat) :
    lastOf base (x :: l) = lastOf x l := rfl

/-- Over a non-decreasing stream the last sample dominates the base and
inherits its `uint64` bound. -/
theorem monotoneFromB_lastOf (l : List Nat) :
    ∀ base, monotoneFromB base l = true →
      base ≤ lastOf base l ∧ (base < U64 → lastOf base l < U64) := by
  induction l with
  | nil =>
    intro base _
    exact ⟨Nat.le_refl _, fun h => h⟩
  | cons x rest ih =>
    intro base h
    simp only [monotoneFromB, Bool.and_eq_true, decide_eq_true_eq] at h
    obtain ⟨⟨h1, h2⟩, h3⟩ := h
    have hx := ih x h3
    rw [lastOf_cons]
    exact ⟨h1.trans hx.1, fun _ => hx.2 h2⟩

/-- Per-tick deltas of a non-decreasing stream telescope to
`finalRaw - initialRaw`. -/
theorem deltaSum_eq (l : List Nat) :
    ∀ base, monotoneFromB base l = true →
      deltaSum base l = lastOf base l - base := by
  induction l with
  | nil =>
    intro base _
    simp [deltaSum, lastOf]
  | cons x rest ih =>
    intro base h
    simp only [monotoneFromB, Bool.and_eq_true, decide_eq_true_eq] at h
    obtain ⟨⟨h1, _⟩, h3⟩ := h
    have hlast := (monotoneFromB_lastOf rest x h3).1
    rw [lastOf_cons]
    simp only [deltaSum]
    rw [ih x h3]
    omega

/-- A no-reset tick's accumulate block, in terms of the prior state. -/
theorem update_noReset_accum (cfg : Config) (dOk : Int → Bool) (a b : Nat)
    (now : GoTime) (s : TrafficStats) (h : now.after s.nextResetTime = false) :
    (updateTrafficStats cfg dOk (.ok (a, b)) now s).1.bytesIn
        = add64 s.bytesIn (sub64 a s.lastBytesIn) ∧
    (updateTrafficStats cfg dOk (.ok (a, b)) now s).1.bytesOut
        = add64 s.bytesOut (sub64 b s.lastBytesOut) ∧
    (updateTrafficStats cfg dOk (.ok (a, b)) now s).1.lastBytesIn = a ∧
    (updateTrafficStats cfg dOk (.ok (a, b)) now s).1.lastBytesOut = b := by
  refine ⟨?_, ?_, ?_, ?_⟩ <;> simp [updateTrafficStats_ok, h]

/-- Accumulation invariant of a no-reset run of successful ticks with
non-decreasing raw samples: each total grows by exactly the sum of the
true deltas. -/
theorem runTicks_accum (ticks : List ((Nat × Nat) × GoTime)) :
    ∀ (cfg : Config) (dOk : Int → Bool) (s : TrafficStats),
    (∀ p ∈ ticks, GoTime.after p.2 s.nextResetTime = false) →
    monotoneFromB s.lastBytesIn (ticks.map (fun p => p.1.1)) = true →
    monotoneFromB s.lastBytesOut (ticks.map (fun p => p.1.2)) = true →
    s.bytesIn + (lastOf s.lastBytesIn (ticks.map (fun p => p.1.1)) - s.lastBytesIn) < U64 →
    s.bytesOut + (lastOf s.lastBytesOut (ticks.map (fun p => p.1.2)) - s.lastBytesOut) < U64 →
    (runTicks cfg dOk s (okTicks ticks)).1.bytesIn
        = s.bytesIn + deltaSum s.lastBytesIn (ticks.map (fun p => p.1.1)) ∧
    (runTicks cfg dOk s (okTicks ticks)).1.bytesOut
        = s.bytesOut + deltaSum s.lastBytesOut (ticks.map (fun p => p.1.2)) := by
  induction ticks with
  | nil =>
    intro cfg dOk s _ _ _ _ _
    simp [okTicks, runTicks, deltaSum]
  | cons p rest ih =>
    obtain ⟨⟨a, b⟩, now⟩ := p
    intro cfg dOk s hres hmin hmout hbin hbout
    simp only [List.map_cons, monotoneFromB, Bool.and_eq_true, decide_eq_true_eq]
      at hmin hmout
    obtain ⟨⟨hi1, hi2⟩, hi3⟩ := hmin
    obtain ⟨⟨ho1, ho2⟩, ho3⟩ := hmout
    simp only [List.map_cons, lastOf_cons] at hbin hbout
    have hnow : now.after s.nextResetTime = false := hres _ (List.mem_cons_self _ _)
    obtain ⟨ha1, ha2, ha3, ha4⟩ := update_noReset_accum cfg dOk a b now s hnow
    have hnr : (updateTrafficStats cfg dOk (.ok (a, b)) now s).1.nextResetTime
        = s.nextResetTime := update_noReset_nextResetTime cfg dOk _ now s hnow
    have hlastIn := monotoneFromB_lastOf (rest.map (fun p => p.1.1)) a hi3
    have hlastOut := monotoneFromB_lastOf (rest.map (fun p => p.1.2)) b ho3
    have hIn1 : (updateTrafficStats cfg dOk (.ok (a, b)) now s).1.bytesIn
        = s.bytesIn + (a - s.lastBytesIn) := by
      rw [ha1, sub64_of_le a s.lastBytesIn hi1 hi2]
      exact add64_of_lt _ _ (by omega)
    have hOut1 : (updateTrafficStats cfg dOk (.ok (a, b)) now s).1.bytesOut
        = s.bytesOut + (b - s.lastBytesOut) := by
      rw [ha2, sub64_of_le b s.lastBytesOut ho1 ho2]
      exact add64_of_lt _ _ (by omega)
    have hresR : ∀ q ∈ rest,
        GoTime.after q.2 (updateTrafficStats cfg dOk (.ok (a, b)) now s).1.nextResetTime
          = false := by
      rw [hnr]
      exact fun q hq => hres q (List.mem_cons_of_mem _ hq)
    obtain ⟨r1, r2⟩ := ih cfg dOk (updateTrafficStats cfg dOk (.ok (a, b)) now s).1
      hresR (by rw [ha3]; exact hi3) (by rw [ha4]; exact ho3)
      (by rw [hIn1, ha3]; omega) (by rw [hOut1, ha4]; omega)
    rw [ha3] at r1
    rw [ha4] at r2
    have hrw : runTicks cfg dOk s (okTicks (((a, b), now) :: rest))
        = (( runTicks cfg dOk (updateTrafficStats cfg dOk (.ok (a, b)) now s).1
              (okTicks rest)).1,
           (if (updateTrafficStats cfg dOk (.ok (a, b)) now s).2.warningAttempted
            then 1 else 0) +
             (runTicks cfg dOk (updateTrafficStats cfg dOk (.ok (a, b)) now s).1
               (okTicks rest)).2) := rfl
    rw [hrw]
    simp only [List.map_cons, deltaSum]
    constructor
    · rw [r1, hIn1]
      omega
    · rw [r2, hOut1]
      omega

/-- C3: over any run of successful ticks with non-decreasing raw
samples and no reset crossed, each accumulated total ends at its
starting value plus the sum of the per-tick deltas; that sum telescopes
to `finalRaw - initialRaw`, so a total starting from zero at the
initial baseline ends at exactly `finalRaw - initialRaw`. -/
theorem accumulated_totals_telescope (cfg : Config) (dOk : Int → Bool)
    (s : TrafficStats) (ticks : List ((Nat × Nat) × GoTime))
    (hres : ∀ p ∈ ticks, GoTime.after p.2 s.nextResetTime = false)
    (hmin : monotoneFromB s.lastBytesIn (ticks.map (fun p => p.1.1)) = true)
    (hmout : monotoneFromB s.lastBytesOut (ticks.map (fun p => p.1.2)) = true)
    (hbin : s.bytesIn +
      (lastOf s.lastBytesIn (ticks.map (fun p => p.1.1)) - s.lastBytesIn) < U64)
    (hbout : s.bytesOut +
      (lastOf s.lastBytesOut (ticks.map (fun p => p.1.2)) - s.lastBytesOut) < U64) :
    (runTicks cfg dOk s (okTicks ticks)).1.bytesIn
        = s.bytesIn + deltaSum s.lastBytesIn (ticks.map (fun p => p.1.1)) ∧
    (runTicks cfg dOk s (okTicks ticks)).1.bytesOut
        = s.bytesOut + deltaSum s.lastBytesOut (ticks.map (fun p => p.1.2)) ∧
    deltaSum s.lastBytesIn (ticks.map (fun p => p.1.1))
        = lastOf s.lastBytesIn (ticks.map (fun p => p.1.1)) - s.lastBytesIn ∧
    deltaSum s.lastBytesOut (ticks.map (fun p => p.1.2))
        = lastOf s.lastBytesOut (ticks.map (fun p => p.1.2)) - s.lastBytesOut ∧
    (s.bytesIn = 0 → (runTicks cfg dOk s (okTicks ticks)).1.bytesIn
        = lastOf s.lastBytesIn (ticks.map (fun p => p.1.1)) - s.lastBytesIn) ∧
    (s.bytesOut = 0 → (runTicks cfg dOk s (okTicks ticks)).1.bytesOut
        = lastOf s.lastBytesOut (ticks.map (fun p => p.1.2)) - s.lastBytesOut) := by
  obtain ⟨h1, h2⟩ := runTicks_accum ticks cfg dOk s hres hmin hmout hbin hbout
  have e1 := deltaSum_eq (ticks.map (fun p => p.1.1)) s.lastBytesIn hmin
  have e2 := deltaSum_eq (ticks.map (fun p => p.1.2)) s.lastBytesOut hmout
  refine ⟨h1, h2, e1, e2, ?_, ?_⟩
  · intro hz
    rw [h1, hz, e1, Nat.zero_add]
  · intro hz
    rw [h2, hz, e2, Nat.zero_add]

/-- Witness for C3: from baselines 10/10 and zero totals, ticks with
samples (20,30) then (25,45) leave `BytesIn = 25 - 10 = 15` and
`BytesOut = 45 - 10 = 35`. -/
theorem accumulated_totals_telescope_witness :
    (runTicks cfgBoth (fun _ => true) baseStats
        (okTicks [((20, 30), aprNow), ((25, 45), aprNow)])).1.bytesIn = 15 ∧
    (runTicks cfgBoth (fun _ => true) baseStats
        (okTicks [((20, 30), aprNow), ((25, 45), aprNow)])).1.bytesOut = 35 := by
  have h := accumulated_totals_telescope cfgBoth (fun _ => true) baseStats
    [((20, 30), aprNow), ((25, 45), aprNow)]
    (by decide) (by decide) (by decide) (by decide) (by decide)
  constructor
  · rw [h.2.2.2.2.1 rfl]
    decide
  · rw [h.2.2.2.2.2 rfl]
    decide

theorem charDigit_digitChar : ∀ k, k < 10 → charDigit (digitChar k) = k := by
  decide

/-- Parsing back a two-digit zero-padded rendering. -/
theorem parse2_digits (n : Nat) (h : n < 100) :
    charDigit (digitChar (n / 10)) * 10 + charDigit (digitChar (n % 10)) = n := by
  rw [charDigit_digitChar _ (by omega), charDigit_digitChar _ (by omega)]
  omega

/-- Parsing back a four-digit zero-padded rendering. -/
theorem parse4_digits (n : Nat) (h : n < 10000) :
    charDigit (digitChar (n / 1000)) * 1000 +
      charDigit (digitChar (n / 100 % 10)) * 100 +
      charDigit (digitChar (n / 10 % 10)) * 10 +
      charDigit (digitChar (n % 10)) = n := by
  rw [charDigit_digitChar _ (by omega), charDigit_digitChar _ (by omega),
      charDigit_digitChar _ (by omega), charDigit_digitChar _ (by omega)]
  omega

/-- The `time.Time` JSON codec round-trips every in-range instant. -/
theorem parseTime_fmtTime (t : GoTime) (h : timeValid t) :
    parseTime (fmtTime t) = some t := by
  obtain ⟨y, mo, d, hr, mi, se, lo⟩ := t
  simp only [timeValid] at h
  obtain ⟨hy, hmo, hd, hhr, hmi, hse, hlo⟩ := h
  cases lo with
  | ofNat n =>
    have hco : Int.ofNat n = (n : Int) := rfl
    have hneg : ¬ (Int.ofNat n < 0) := by rw [hco]; omega
    have hn : (Int.ofNat n).natAbs = n := rfl
    rw [hn] at hlo
    simp [fmtTime, pad4, pad2, parseTime, hneg, hn, hco, parse4_digits y hy,
      parse2_digits mo hmo, parse2_digits d hd, parse2_digits hr hhr,
      parse2_digits mi hmi, parse2_digits se hse,
      charDigit_digitChar (n / 60 / 10) (by omega),
      charDigit_digitChar (n / 60 % 10) (by omega),
      charDigit_digitChar (n % 60 / 10) (by omega),
      charDigit_digitChar (n % 60 % 10) (by omega)]
    omega
  | negSucc n =>
    have hneg : Int.negSucc n < 0 := Int.negSucc_lt_zero n
    have hn : (Int.negSucc n).natAbs = n + 1 := rfl
    rw [hn] at hlo
    simp [fmtTime, pad4, pad2, parseTime, hneg, hn,
      -Int.natCast_natAbs,
      parse4_digits y hy,
      parse2_digits mo hmo, parse2_digits d hd, parse2_digits hr hhr,
      parse2_digits mi hmi, parse2_digits se hse,
      charDigit_digitChar ((n + 1) / 60 / 10) (by omega),
      charDigit_digitChar ((n + 1) / 60 % 10) (by omega),
      charDigit_digitChar ((n + 1) % 60 / 10) (by omega),
      charDigit_digitChar ((n + 1) % 60 % 10) (by omega)]
    rw [Int.negSucc_eq]
    omega

/-- C9: serializing a `TrafficStats` to the persisted JSON form and
deserializing it back reproduces every field exactly (month label,
both schedule timestamps, all four `uint64` counters, and the warning
flag), for every state whose numeric fields fit in `uint64` and whose
timestamps are in the marshaller's range. -/
theorem stats_roundtrip (s : TrafficStats) (hU : statsU64 s)
    (h1 : timeValid s.lastResetTime) (h2 : timeValid s.nextResetTime) :
    statsFromJson (statsToJson s) = some s := by
  unfold statsU64 at hU
  obtain ⟨hb1, hb2, hb3, hb4⟩ := hU
  simp [statsToJson, statsFromJson, jsonLookup, asStr, asNum, asBool, asTime,
        parseTime_fmtTime _ h1, parseTime_fmtTime _ h2, hb1, hb2, hb3, hb4]

/-- Witness for C9 at the concrete mid-period state. -/
theorem stats_roundtrip_witness :
    statsFromJson (statsToJson baseStats) = some baseStats :=
  stats_roundtrip baseStats (by decide) (by decide) (by decide)

/-- Witness for C5 at concrete inputs, including the spec's
`max`-scenario figures (200 GiB in, 900 GiB out). -/
theorem effectiveTraffic_spec_witness :
    effectiveTraffic "weird" 1 2 = 0 ∧
    effectiveTraffic "both" 1 2 = 3 ∧
    effectiveTraffic "max" (200 * GiB) (900 * GiB) = 900 * GiB := by
  have h1 := effectiveTraffic_spec "weird" 1 2 5
  have h2 := effectiveTraffic_spec "weird" (200 * GiB) (900 * GiB) 5
  refine ⟨(h1.2.2.2.2 (by decide) (by decide) (by decide) (by decide)).1,
          h1.2.2.2.1 (by decide), ?_⟩
  rw [h2.2.2.1]
  decide

end TrafficMonitor
